import Mathlib

/-!
Verification development for the notebook
`the_Flow_Director_Accumulator_PriorityFlood.ipynb`.

The notebook builds a 10-by-10 landlab `RasterModelGrid`, assigns the
synthetic elevation field `3.0 * x**2 + y**2`, instantiates the
`PriorityFloodFlowRouter` component for eight flow-metric variants, calls
`run_one_step`, and plots the results.  The landlab / richdem machinery is
external to the repository, so the parts of it that the claims touch are
modelled here from the spec; the notebook's own statements are transcribed
directly.
-/

/-! ## Grid geometry -/

/-- Number of grid columns: the notebook always builds `RasterModelGrid((10, 10))`. -/
def ncols : Nat := 10

/-- Number of grid rows. -/
def nrows : Nat := 10

/-- Total number of nodes of the raster grid. -/
def numNodes : Nat := nrows * ncols

/-- Modelled from the spec: a DEM is "a raster grid of terrain elevation
values"; landlab numbers the nodes of a raster grid row by row from the
bottom-left corner, so the x coordinate (column) of node `n` is `n % ncols`.
The landlab grid implementation itself is not part of this repository. -/
def x_of_node (n : Nat) : Nat := n % ncols

/-- Modelled from the spec: the y coordinate (row) of node `n` is `n / ncols`
(row-major node numbering of the raster grid, unit node spacing). -/
def y_of_node (n : Nat) : Nat := n / ncols

/-- The synthetic elevation formula of the notebook,
`3.0 * mg.x_of_node**2 + mg.y_of_node**2`, as a function of the coordinates.
All its values at integer coordinates are integers. -/
def elevXY (x y : Nat) : Nat := 3 * x ^ 2 + y ^ 2

/-- Elevation of node `n` under the notebook's synthetic field. -/
def elevNode (n : Nat) : Nat := elevXY (x_of_node n) (y_of_node n)

/-- The at-node array the notebook stores under `"topographic__elevation"`. -/
def elevationArray : List ℚ := (List.range numNodes).map (fun n => (elevNode n : ℚ))

/-- The at-node array `mg.x_of_node`. -/
def xOfNodeArray : List ℚ := (List.range numNodes).map (fun n => (x_of_node n : ℚ))

/-- The at-node array `mg.y_of_node`. -/
def yOfNodeArray : List ℚ := (List.range numNodes).map (fun n => (y_of_node n : ℚ))

/-- Modelled from the spec: landlab's perimeter nodes are boundary nodes which
"do not have area"; the core nodes are the interior nodes. -/
def isCore (n : Nat) : Bool :=
  0 < x_of_node n && x_of_node n < ncols - 1 &&
  0 < y_of_node n && y_of_node n < nrows - 1

/-- `mg.number_of_core_nodes`: the number of interior (core) nodes. -/
def number_of_core_nodes : Nat :=
  ((List.range numNodes).filter (fun n => isCore n)).length

/-- Modelled from the spec: the cell area attached to a node, "core nodes
... each have an area of one", boundary nodes "do not have area". -/
def cell_area (n : Nat) : Nat := if isCore n then 1 else 0

/-! ## Flow directions (modelled from the spec)

The spec's glossary: "Flow direction: assignment, per grid cell, of which
neighbor(s) receive outgoing surface water."  The D8 variants consider the
eight surrounding cells, the D4 variants only the four cardinal ones. -/

/-- The eight neighbour offsets used by the D8-family metrics. -/
def d8Offsets : List (Int × Int) :=
  [(-1, -1), (0, -1), (1, -1), (-1, 0), (1, 0), (-1, 1), (0, 1), (1, 1)]

/-- The four cardinal neighbour offsets used by the D4-family metrics. -/
def d4Offsets : List (Int × Int) := [(0, -1), (-1, 0), (1, 0), (0, 1)]

/-- Whether integer coordinates lie inside the raster grid. -/
def inGrid (x y : Int) : Bool :=
  0 ≤ x && x < (ncols : Int) && 0 ≤ y && y < (nrows : Int)

/-- The node id at in-grid integer coordinates. -/
def nodeAt (x y : Int) : Nat := (y * (ncols : Int) + x).toNat

/-- The in-grid neighbours of node `n` for a given offset stencil, each with
the elevation drop towards it and the squared distance to it. -/
def candidates (offs : List (Int × Int)) (n : Nat) : List (Nat × Int × Int) :=
  offs.filterMap (fun p =>
    let xx : Int := (x_of_node n : Int) + p.1
    let yy : Int := (y_of_node n : Int) + p.2
    if inGrid xx yy then
      let m := nodeAt xx yy
      some (m, (elevNode n : Int) - (elevNode m : Int), p.1 ^ 2 + p.2 ^ 2)
    else none)

/-- `steeper (d₁, s₁) (d₂, s₂)` decides whether a downhill drop `d₁` over
squared distance `s₁` is strictly steeper than drop `d₂` over squared
distance `s₂`: for positive drops, `d₁ / √s₁ > d₂ / √s₂` iff
`d₁² · s₂ > d₂² · s₁`. -/
def steeper (a b : Int × Int) : Bool :=
  0 < a.1 && (b.1 ≤ 0 || b.1 ^ 2 * a.2 < a.1 ^ 2 * b.2)

/-- Modelled from the spec: single-direction flow routing sends all water of
a node to the neighbour of steepest downhill slope; a node with no lower
neighbour is a local sink and "flows to itself". -/
def receiverOf (offs : List (Int × Int)) (n : Nat) : Nat :=
  ((candidates offs n).foldl
    (fun best c => if steeper c.2 best.2 then c else best)
    (n, 0, 1)).1

/-- The D8 receiver node of node `n` (steepest of the eight neighbours). -/
def receiverD8 (n : Nat) : Nat := receiverOf d8Offsets n

/-- The D4 receiver node of node `n` (steepest of the four neighbours). -/
def receiverD4 (n : Nat) : Nat := receiverOf d4Offsets n

/-- The strictly lower in-grid neighbours of `n`: the candidate receivers of
the multiple-flow-direction and stochastic metrics (Quinn, Freeman,
Holmgren, Rho8, Rho4, D-infinity), modelled from the spec's glossary entry
on flow direction. -/
def lowerNeighbors (offs : List (Int × Int)) (n : Nat) : List Nat :=
  ((candidates offs n).filter (fun c => 0 < c.2.1)).map (fun c => c.1)

/-! ## Drainage accumulation (modelled from the spec)

"Drainage area / discharge: accumulated upstream area or water volume routed
through a cell."  Weights are accumulated by processing nodes in order of
decreasing elevation and handing each node's accumulated weight to its
receiver; every receiver is strictly lower than its donor, so every donor is
processed before its receiver. -/

/-- Insert a node into a list sorted by decreasing elevation. -/
def insertByElev (n : Nat) : List Nat → List Nat
  | [] => [n]
  | m :: ms => if elevNode m ≤ elevNode n then n :: m :: ms else m :: insertByElev n ms

/-- All node ids sorted by decreasing elevation. -/
def descendingNodes : List Nat := (List.range numNodes).foldr insertByElev []

/-- Accumulate per-node weights down the flow directions given by `recv`:
the resulting value at a node is the total weight routed through it. -/
def accumulate {α : Type} [Add α] (z : α) (recv : Nat → Nat) (w : List α) : List α :=
  descendingNodes.foldl
    (fun acc n =>
      let r := recv n
      if r = n then acc else acc.set r (acc.getD r z + acc.getD n z))
    w

/-- The accumulated cell areas of the D8 run, at the natural-number level. -/
def drainageAreaNat : List Nat :=
  accumulate 0 receiverD8 ((List.range numNodes).map cell_area)

/-- The at-node field `"drainage_area"` produced by the D8 run: accumulated
cell area. -/
def drainage_area_values : List ℚ := drainageAreaNat.map (fun k : Nat => (k : ℚ))

/-- The at-node field `"surface_water__discharge"`: accumulated water input
`flux · cell_area`. -/
def discharge_values (flux : List ℚ) : List ℚ :=
  accumulate (0 : ℚ) receiverD8
    ((List.range numNodes).map (fun n => flux.getD n 0 * (cell_area n : ℚ)))

/-- `Z.max()` of a numpy array, modelled on lists (0 on the empty array,
which numpy rejects). -/
def npMax : List ℚ → ℚ
  | [] => 0
  | a :: as => as.foldl max a

/-- `Z.min()` of a numpy array, modelled on lists. -/
def npMin : List ℚ → ℚ
  | [] => 0
  | a :: as => as.foldl min a

/-- `npMax` at the natural-number level, for computation. -/
def npMaxNat : List Nat → Nat
  | [] => 0
  | a :: as => as.foldl max a

/-- `npMin` at the natural-number level, for computation. -/
def npMinNat : List Nat → Nat
  | [] => 0
  | a :: as => as.foldl min a

/-! ## Grid state and field operations -/

/-- The at-node fields of a landlab model grid: an association list from
field names to at-node value arrays. -/
structure GridState where
  fields : List (String × List ℚ)
deriving DecidableEq

/-- Whether the grid holds an at-node field of the given name. -/
def hasField (s : GridState) (name : String) : Bool :=
  s.fields.any (fun p => p.1 == name)

/-- The values of the named at-node field (the empty array if absent). -/
def getField (s : GridState) (name : String) : List ℚ :=
  ((s.fields.find? (fun p => p.1 == name)).map Prod.snd).getD []

/-- Replace the entry for `name`, or append it if absent. -/
def setEntry (name : String) (v : List ℚ) :
    List (String × List ℚ) → List (String × List ℚ)
  | [] => [(name, v)]
  | p :: ps => if p.1 == name then (name, v) :: ps else p :: setEntry name v ps

/-- Store an at-node field unconditionally. -/
def setField (s : GridState) (name : String) (v : List ℚ) : GridState :=
  ⟨setEntry name v s.fields⟩

/-- Modelled from the spec: landlab's `ModelGrid.add_field` (not part of this
repository) raises a `FieldError` when a field of that name already exists
and `clobber` is not set, and overwrites the stored values when
`clobber=True`. -/
def add_field (s : GridState) (name : String) (v : List ℚ) (clobber : Bool) :
    Except String GridState :=
  if hasField s name && !clobber then Except.error "FieldError"
  else Except.ok (setField s name v)

/-- Modelled from the spec: `PriorityFloodFlowRouter.run_one_step` (external
to this repository) fills depressions, assigns flow directions by the
chosen metric, and accumulates drainage area and discharge; it creates the
component's output fields, among them `water__unit_flux_in` (defaulting to
unit runoff when the user has not supplied one), `drainage_area` and
`surface_water__discharge`.  It is instantiated here with the receiver
function of the run's flow metric. -/
def run_one_step (recv : Nat → Nat) (s : GridState) : GridState :=
  let flux := if hasField s "water__unit_flux_in"
    then getField s "water__unit_flux_in"
    else List.replicate numNodes 1
  let s1 := setField s "water__unit_flux_in" flux
  let s2 := setField s1 "drainage_area"
    ((accumulate 0 recv ((List.range numNodes).map cell_area)).map (fun k : Nat => (k : ℚ)))
  setField s2 "surface_water__discharge"
    (accumulate (0 : ℚ) recv
      ((List.range numNodes).map (fun n => flux.getD n 0 * (cell_area n : ℚ))))

/-- The grid as the notebook first builds it: `RasterModelGrid((10, 10))`
with the synthetic elevation field added. -/
def mg0 : GridState := ⟨[("topographic__elevation", elevationArray)]⟩

/-- The grid state after the notebook's first `fa.run_one_step()` (D8 run). -/
def firstRunState : GridState := run_one_step receiverD8 mg0

/-! ## Plotting routines -/

/-- `numpy.reshape` restricted to the two-dimensional case: the list of the
`r` rows of length `c`, defined when the array has exactly `r * c` entries
(numpy raises an error otherwise). -/
def reshapeRows {α : Type} : Nat → Nat → List α → List (List α)
  | 0, _, _ => []
  | r + 1, c, l => l.take c :: reshapeRows r c (l.drop c)

/-- `a.reshape((r, c))`: `none` models numpy's shape-mismatch error. -/
def reshape {α : Type} (l : List α) (r c : Nat) : Option (List (List α)) :=
  if l.length = r * c then some (reshapeRows r c l) else none

/-- The data handed to matplotlib by the notebook's `surf_plot` routine. -/
structure SurfPlotData where
  xs : List (List ℚ)
  ys : List (List ℚ)
  zs : List (List ℚ)
  colors : List (List ℚ)
deriving DecidableEq

/-- The normalisation `(Z - Z.min()) / (Z.max() - Z.min())` performed inside
`surf_plot`, element-wise on the at-node array. -/
def normalizeArray (z : List ℚ) : List ℚ :=
  z.map (fun v => (v - npMin z) / (npMax z - npMin z))

/-- The notebook's `surf_plot` routine: read the named surface field,
reshape it and the coordinate arrays to the grid shape, normalise the
values into gray-scale colors, and hand everything to `plot_surface`.  It
only reads the grid. -/
def surf_plot (s : GridState) (surface : String) : SurfPlotData :=
  let z := getField s surface
  { xs := (reshape xOfNodeArray nrows ncols).getD []
    ys := (reshape yOfNodeArray nrows ncols).getD []
    zs := (reshape z nrows ncols).getD []
    colors := (reshape (normalizeArray z) nrows ncols).getD [] }

/-- The data read by landlab's `drainage_plot`. -/
structure DrainagePlotData where
  background : List ℚ
  receivers : List Nat
deriving DecidableEq

/-- Modelled from the spec: landlab's `drainage_plot` (not part of this
repository) renders the chosen background field and the flow-direction
arrows; it reads the grid and draws, nothing more. -/
def drainage_plot (s : GridState) (surface : String) : DrainagePlotData :=
  { background := getField s surface
    receivers := (List.range numNodes).map receiverD8 }

/-! ## The notebook as a sequence of events -/

/-- The operations the notebook's code cells perform, in the order they
appear.  `addField` carries the at-node array being stored; the router
instantiation carries the `flow_metric` string passed (or `none` for the
default-argument instantiation `PriorityFloodFlowRouter(mg)`). -/
inductive NbEvent where
  | constructGrid (rows cols : Nat)
  | addField (name : String) (values : List ℚ) (clobber : Bool)
  | instantiateRouter (flow_metric : Option String)
  | callRouter (method : String) (numArgs : Nat)
  | surfPlotEvent (surface : String)
  | drainagePlotEvent (surface : String)
  | printValues (name : String)
  | imshow
deriving DecidableEq

/-- The five statements of each of the seven later variant cells: build a
fresh 10-by-10 grid, add the synthetic elevation, instantiate the router
with the variant's metric, run it, and plot the discharge. -/
def variantCells (metric : String) : List NbEvent :=
  [NbEvent.constructGrid 10 10,
   NbEvent.addField "topographic__elevation" elevationArray false,
   NbEvent.instantiateRouter (some metric),
   NbEvent.callRouter "run_one_step" 0,
   NbEvent.drainagePlotEvent "surface_water__discharge"]

/-- The full sequence of operations of the notebook's code cells, with the
random rain array as a parameter. -/
def notebookEvents (rain : List ℚ) : List NbEvent :=
  [NbEvent.constructGrid 10 10,
   NbEvent.addField "topographic__elevation" elevationArray false,
   NbEvent.surfPlotEvent "topographic__elevation",
   NbEvent.instantiateRouter none,
   NbEvent.instantiateRouter (some "D8"),
   NbEvent.callRouter "run_one_step" 0,
   NbEvent.drainagePlotEvent "topographic__elevation",
   NbEvent.drainagePlotEvent "drainage_area",
   NbEvent.printValues "drainage_area",
   NbEvent.printValues "number_of_core_nodes",
   NbEvent.imshow,
   NbEvent.addField "water__unit_flux_in" rain true,
   NbEvent.callRouter "run_one_step" 0,
   NbEvent.drainagePlotEvent "surface_water__discharge"] ++
  (["D4", "Rho8", "Rho4", "Quinn", "Freeman", "Holmgren", "Dinf"].map variantCells).flatten

/-- Effect of one notebook operation on the current grid: plotting and
printing compute from the grid and change nothing; `addField` and the
router's `run_one_step` update fields; constructing a grid starts from a
fresh, empty field table. -/
def stepEvent (e : NbEvent) (s : GridState) : Except String GridState :=
  match e with
  | NbEvent.constructGrid _ _ => Except.ok ⟨[]⟩
  | NbEvent.addField name v clobber => add_field s name v clobber
  | NbEvent.instantiateRouter _ => Except.ok s
  | NbEvent.callRouter _ _ => Except.ok (run_one_step receiverD8 s)
  | NbEvent.surfPlotEvent f =>
      let _p := surf_plot s f
      Except.ok s
  | NbEvent.drainagePlotEvent f =>
      let _p := drainage_plot s f
      Except.ok s
  | NbEvent.printValues _ => Except.ok s
  | NbEvent.imshow => Except.ok s

/-! ## The eight demonstrated flow metrics -/

/-- The eight `flow_metric` strings the notebook passes. -/
def flowMetrics : List String :=
  ["D8", "D4", "Rho8", "Rho4", "Quinn", "Freeman", "Holmgren", "Dinf"]

/-- The offset stencil used by each metric: the `4`-variants consider the
four cardinal neighbours, all others the eight surrounding cells. -/
def metricOffsets (m : String) : List (Int × Int) :=
  if m == "D4" || m == "Rho4" then d4Offsets else d8Offsets

/-- Modelled from the spec: the set of nodes to which metric `m` may assign
outgoing flow from node `n` — the steepest neighbour for the deterministic
single-direction metrics, any strictly lower neighbour for the stochastic
(Rho8, Rho4) and multiple-direction (Quinn, Freeman, Holmgren, D-infinity)
metrics, and the node itself when it is a local sink. -/
def possibleReceivers (m : String) (n : Nat) : List Nat :=
  if m == "D8" || m == "D4" then [receiverOf (metricOffsets m) n]
  else
    let ls := lowerNeighbors (metricOffsets m) n
    if ls.isEmpty then [n] else ls

/-- Grid adjacency: two distinct nodes sharing an edge or a corner. -/
def adjacent (a b : Nat) : Bool :=
  a != b &&
  ((x_of_node a : Int) - (x_of_node b : Int)).natAbs ≤ 1 &&
  ((y_of_node a : Int) - (y_of_node b : Int)).natAbs ≤ 1

/-! ## Event predicates -/

/-- Whether an event renders a plot. -/
def isPlotEvent : NbEvent → Bool
  | NbEvent.surfPlotEvent _ => true
  | NbEvent.drainagePlotEvent _ => true
  | _ => false

/-- Whether an event is the call `fa.run_one_step()`. -/
def isRunCall : NbEvent → Bool
  | NbEvent.callRouter m k => m == "run_one_step" && k == 0
  | _ => false

/-- Whether an event is any method call on a router object. -/
def isRouterCallE : NbEvent → Bool
  | NbEvent.callRouter _ _ => true
  | _ => false

/-- Whether an event is an `add_field` call. -/
def isAddFieldE : NbEvent → Bool
  | NbEvent.addField _ _ _ => true
  | _ => false

/-- Whether an event constructs a fresh grid. -/
def isConstructE : NbEvent → Bool
  | NbEvent.constructGrid _ _ => true
  | _ => false

/-- Whether the event list contains a `run_one_step` call followed, later,
by a plot. -/
def runThenPlot : List NbEvent → Bool
  | [] => false
  | e :: es => (isRunCall e && es.any isPlotEvent) || runThenPlot es

/-- Whether the event list instantiates the router with the given
`flow_metric` string and later runs it and renders a plot. -/
def demonstrates (metric : String) : List NbEvent → Bool
  | [] => false
  | e :: es =>
      (e == NbEvent.instantiateRouter (some metric) && runThenPlot es) ||
      demonstrates metric es

/-- The `flow_metric` argument of the last router instantiation. -/
def lastMetric (es : List NbEvent) : Option (Option String) :=
  es.foldl (fun acc e =>
    match e with
    | NbEvent.instantiateRouter m => some m
    | _ => acc) none

/-- The spec's eight variant names paired with the `flow_metric` strings
denoting them in the notebook. -/
def specVariants : List (String × String) :=
  [("D8", "D8"), ("D4", "D4"), ("Rho8", "Rho8"), ("Rho4", "Rho4"),
   ("Quinn", "Quinn"), ("Freeman", "Freeman"), ("Holmgren", "Holmgren"),
   ("D-infinity", "Dinf")]

/-- Claim C1: for each of the eight named flow-routing variants the notebook
instantiates `PriorityFloodFlowRouter` with that variant's `flow_metric`
string, later invokes `run_one_step`, and later renders a diagnostic plot;
the spec's "D-infinity" is the string `"Dinf"` of the notebook's last
instantiation, and the variant table covers exactly the eight metric
strings. -/
theorem variants_all_demonstrated (rain : List ℚ) :
    (specVariants.all fun p => demonstrates p.2 (notebookEvents rain)) = true ∧
    lastMetric (notebookEvents rain) = some (some "Dinf") ∧
    specVariants.map (fun p => p.2) = flowMetrics := by
  refine ⟨rfl, rfl, rfl⟩

/-- Claim C2: every method call on a constructed router object in the
notebook is `run_one_step`, and it is always called with no arguments. -/
theorem router_calls_only_run_one_step (rain : List ℚ) :
    ((notebookEvents rain).all fun e => !(isRouterCallE e) || isRunCall e) = true := by
  rfl

/-- Claim C5: the rendering operations (`surf_plot`, every `drainage_plot`,
`print`, `imshow`) leave the grid unchanged; an operation after which the
grid differs is an `add_field`, a router `run_one_step` call, or the
construction of a fresh grid — and construction reads nothing of the
current grid, always yielding the empty-field grid. -/
theorem plots_leave_grid_unchanged :
    (∀ (s : GridState) (f : String),
      stepEvent (NbEvent.surfPlotEvent f) s = Except.ok s) ∧
    (∀ (s : GridState) (f : String),
      stepEvent (NbEvent.drainagePlotEvent f) s = Except.ok s) ∧
    (∀ (s : GridState) (f : String),
      stepEvent (NbEvent.printValues f) s = Except.ok s) ∧
    (∀ s : GridState, stepEvent NbEvent.imshow s = Except.ok s) ∧
    (∀ (s : GridState) (m : Option String),
      stepEvent (NbEvent.instantiateRouter m) s = Except.ok s) ∧
    (∀ (e : NbEvent) (s t : GridState), stepEvent e s = Except.ok t → t ≠ s →
      isAddFieldE e = true ∨ isRouterCallE e = true ∨ isConstructE e = true) ∧
    (∀ (r c : Nat) (s : GridState),
      stepEvent (NbEvent.constructGrid r c) s = Except.ok ⟨[]⟩) := by
  refine ⟨fun s f => rfl, fun s f => rfl, fun s f => rfl, fun s => rfl,
    fun s m => rfl, ?_, fun r c s => rfl⟩
  intro e s t h hne
  cases e <;> simp_all [stepEvent, isAddFieldE, isRouterCallE, isConstructE]

/-- Witness for C5 at a concrete mutating event: adding a field to the
empty grid changes it, and the event is classified as an `add_field`. -/
theorem plots_leave_grid_unchanged_witness :
    isAddFieldE (NbEvent.addField "f" [] true) = true ∨
    isRouterCallE (NbEvent.addField "f" [] true) = true ∨
    isConstructE (NbEvent.addField "f" [] true) = true :=
  plots_leave_grid_unchanged.2.2.2.2.2.1
    (NbEvent.addField "f" [] true) ⟨[]⟩ ⟨[("f", [])]⟩ rfl (by decide)

/-- Claim C3: every grid the notebook constructs is a 10-by-10 raster grid,
every array the notebook stores under `"topographic__elevation"` is the
synthetic array, and that array's value at every node `n` is
`3 * x(n)^2 + y(n)^2` in the node's grid coordinates. -/
theorem grids_and_elevation_field (rain : List ℚ) :
    ((notebookEvents rain).all fun e =>
      match e with
      | NbEvent.constructGrid r c => r == 10 && c == 10
      | _ => true) = true ∧
    (∀ (v : List ℚ) (cl : Bool),
      NbEvent.addField "topographic__elevation" v cl ∈ notebookEvents rain →
        v = elevationArray) ∧
    (∀ n, n < numNodes →
      elevationArray.getD n 0 =
        3 * (x_of_node n : ℚ) ^ 2 + (y_of_node n : ℚ) ^ 2) := by
  refine ⟨rfl, ?_, ?_⟩
  · intro v cl h
    simp only [notebookEvents, variantCells, List.mem_append, List.mem_cons,
      List.mem_singleton, List.map_cons, List.map_nil, List.flatten] at h
    rcases h with h | h <;> simp_all
  · intro n hn
    have h1 : elevationArray.getD n 0 = ((elevNode n : ℕ) : ℚ) := by
      simp [elevationArray, List.getD_eq_getElem?_getD, List.getElem?_map,
        List.getElem?_range, hn]
    rw [h1]
    show (((elevXY (x_of_node n) (y_of_node n) : ℕ)) : ℚ) = _
    rw [elevXY]
    push_cast
    ring

/-- Witness for C3: the first elevation `add_field` of the notebook stores
the synthetic array, and at node 21 (coordinates x = 1, y = 2) its value is
`3 * 1 + 4 = 7`. -/
theorem grids_and_elevation_field_witness :
    elevationArray = elevationArray ∧
    elevationArray.getD 21 0 = 3 * (x_of_node 21 : ℚ) ^ 2 + (y_of_node 21 : ℚ) ^ 2 :=
  ⟨(grids_and_elevation_field []).2.1 elevationArray false
      (by simp [notebookEvents]),
   (grids_and_elevation_field []).2.2 21 (by decide)⟩

/-- Casting commutes with a `max`-fold from naturals to rationals. -/
theorem foldl_max_natCast (as : List Nat) :
    ∀ a : Nat, (as.map (fun k : Nat => (k : ℚ))).foldl max ((a : Nat) : ℚ) =
      ((as.foldl max a : Nat) : ℚ) := by
  induction as with
  | nil => intro a; rfl
  | cons b bs ih =>
    intro a
    simp only [List.map_cons, List.foldl_cons]
    rw [← Nat.cast_max, ih]

/-- `npMax` of a cast array is the cast of the natural-number maximum. -/
theorem npMax_map_natCast (l : List Nat) :
    npMax (l.map (fun k : Nat => (k : ℚ))) = (npMaxNat l : ℚ) := by
  cases l with
  | nil => simp [npMax, npMaxNat]
  | cons a as => exact foldl_max_natCast as a

/-- Casting commutes with a `min`-fold from naturals to rationals. -/
theorem foldl_min_natCast (as : List Nat) :
    ∀ a : Nat, (as.map (fun k : Nat => (k : ℚ))).foldl min ((a : Nat) : ℚ) =
      ((as.foldl min a : Nat) : ℚ) := by
  induction as with
  | nil => intro a; rfl
  | cons b bs ih =>
    intro a
    simp only [List.map_cons, List.foldl_cons]
    rw [← Nat.cast_min, ih]

/-- `npMin` of a cast array is the cast of the natural-number minimum. -/
theorem npMin_map_natCast (l : List Nat) :
    npMin (l.map (fun k : Nat => (k : ℚ))) = (npMinNat l : ℚ) := by
  cases l with
  | nil => simp [npMin, npMinNat]
  | cons a as => exact foldl_min_natCast as a

set_option maxRecDepth 40000 in
/-- Claim C4: after the first `run_one_step` on the 10-by-10 grid with the
synthetic elevation field, the maximum of the at-node field
`"drainage_area"` equals 64, which is the number of core nodes (each of
unit cell area), i.e. the accumulated area at the outlet is the total area
of the grid's interior. -/
theorem drainage_area_max_is_core_area :
    npMax (getField firstRunState "drainage_area") = 64 ∧
    number_of_core_nodes = 64 ∧
    npMax (getField firstRunState "drainage_area") = (number_of_core_nodes : ℚ) ∧
    ((List.range numNodes).map cell_area).sum = number_of_core_nodes := by
  have hf : getField firstRunState "drainage_area" = drainage_area_values := rfl
  have hmax : npMaxNat drainageAreaNat = 64 := by decide
  have h1 : npMax (getField firstRunState "drainage_area") = 64 := by
    rw [hf, drainage_area_values, npMax_map_natCast, hmax]
    norm_num
  have h2 : number_of_core_nodes = 64 := by decide
  have h3 : ((List.range numNodes).map cell_area).sum = number_of_core_nodes := by
    decide
  exact ⟨h1, h2, by rw [h1, h2]; norm_num, h3⟩

set_option maxRecDepth 20000 in
/-- Claim C6: for every flow-routing variant demonstrated, the flow
direction assigned to every node designates only adjacent nodes: each
possible receiver of a node is one of its neighbouring nodes, or the node
itself when it is a local sink. -/
theorem receivers_are_adjacent :
    ∀ m ∈ flowMetrics, ∀ n, n < numNodes →
      ∀ r ∈ possibleReceivers m n, r = n ∨ adjacent n r = true := by
  decide

/-- Witness for C6: under the D8 metric, node 11 (coordinates x = 1, y = 1)
drains to node 10, its western neighbour. -/
theorem receivers_are_adjacent_witness :
    (10 : Nat) = 11 ∨ adjacent 11 10 = true :=
  receivers_are_adjacent "D8" (by decide) 11 (by decide) 10 (by decide)

/-- Flattening the rows of a two-dimensional reshape restores the original
array. -/
theorem join_reshapeRows {α : Type} :
    ∀ (r c : Nat) (l : List α), l.length = r * c →
      (reshapeRows r c l).flatten = l := by
  intro r
  induction r with
  | zero =>
    intro c l h
    simp only [Nat.zero_mul] at h
    simp [reshapeRows, List.eq_nil_of_length_eq_zero h]
  | succ r ih =>
    intro c l h
    have hd : (l.drop c).length = r * c := by
      rw [List.length_drop, h, Nat.succ_mul, Nat.add_sub_cancel]
    simp only [reshapeRows, List.flatten_cons]
    rw [ih c (l.drop c) hd]
    exact List.take_append_drop c l

/-- `accumulate` preserves the length of the weight array. -/
theorem accumulate_length {α : Type} [Add α] (z : α) (recv : Nat → Nat)
    (w : List α) : (accumulate z recv w).length = w.length := by
  rw [accumulate]
  generalize descendingNodes = ns
  induction ns generalizing w with
  | nil => rfl
  | cons n ns ih =>
    simp only [List.foldl_cons]
    rw [ih]
    by_cases hr : recv n = n
    · simp [hr]
    · simp [hr, List.length_set]

set_option maxRecDepth 40000 in
/-- Claim C7: reshaping a 100-entry at-node array to the grid shape and
flattening it back in row-major order is the identity, and every array the
notebook reshapes (elevation, the coordinate arrays, the drainage area, and
any 100-entry rain array) has exactly 100 entries, so every
`reshape(mg.shape)` call is well-defined. -/
theorem reshape_roundtrip :
    (∀ l : List ℚ, l.length = numNodes →
      (reshape l nrows ncols).map List.flatten = some l) ∧
    elevationArray.length = numNodes ∧
    xOfNodeArray.length = numNodes ∧
    yOfNodeArray.length = numNodes ∧
    (getField firstRunState "drainage_area").length = numNodes := by
  refine ⟨?_, by simp [elevationArray], by simp [xOfNodeArray],
    by simp [yOfNodeArray], ?_⟩
  · intro l h
    have h' : l.length = nrows * ncols := h
    rw [reshape, if_pos h']
    rw [Option.map_some']
    rw [join_reshapeRows nrows ncols l h']
  · have hf : getField firstRunState "drainage_area" = drainage_area_values := rfl
    rw [hf, drainage_area_values, List.length_map, drainageAreaNat,
      accumulate_length]
    simp

/-- Witness for C7: the round trip holds at the elevation array itself. -/
theorem reshape_roundtrip_witness :
    (reshape elevationArray nrows ncols).map List.flatten = some elevationArray :=
  reshape_roundtrip.1 elevationArray reshape_roundtrip.2.1

/-- Looking up a field name right after `setEntry` stores it finds the new
values, whether the name was present before or not. -/
theorem find?_setEntry (name : String) (v : List ℚ) :
    ∀ ps : List (String × List ℚ),
      (setEntry name v ps).find? (fun p => p.1 == name) = some (name, v) := by
  intro ps
  induction ps with
  | nil => simp [setEntry]
  | cons p ps ih =>
    rw [setEntry]
    by_cases h : p.1 == name
    · rw [if_pos h]
      exact List.find?_cons_of_pos _ (by simp)
    · rw [if_neg h]
      rw [List.find?_cons_of_neg (p := fun q => q.1 == name) (a := p) _ h, ih]

/-- Reading a field back right after storing it returns the stored values. -/
theorem getField_setField (s : GridState) (name : String) (v : List ℚ) :
    getField (setField s name v) name = v := by
  rw [getField, setField]
  rw [find?_setEntry]
  rfl

set_option maxRecDepth 40000 in
/-- Claim C8: adding a field under an existing name fails (landlab's
`FieldError`) unless `clobber` is set, and succeeds by overwriting when
`clobber=True`; after the notebook's first `run_one_step` the grid already
holds `water__unit_flux_in`, so the second `add_field` of that name needs
`clobber=True` and replaces the stored values. -/
theorem add_field_requires_clobber :
    hasField firstRunState "water__unit_flux_in" = true ∧
    (∀ (s : GridState) (name : String) (v : List ℚ), hasField s name = true →
      add_field s name v false = Except.error "FieldError" ∧
      add_field s name v true = Except.ok (setField s name v) ∧
      getField (setField s name v) name = v) ∧
    (∀ (s : GridState) (name : String) (v : List ℚ), hasField s name = false →
      add_field s name v false = Except.ok (setField s name v)) := by
  refine ⟨rfl, ?_, ?_⟩
  · intro s name v h
    refine ⟨?_, ?_, getField_setField s name v⟩
    · simp [add_field, h]
    · simp [add_field]
  · intro s name v h
    simp [add_field, h]

set_option maxRecDepth 40000 in
/-- Witness for C8: on the post-run grid, re-adding `water__unit_flux_in`
without `clobber` errors, and with `clobber` the stored values become the
new array. -/
theorem add_field_requires_clobber_witness :
    add_field firstRunState "water__unit_flux_in" [] false =
      Except.error "FieldError" ∧
    getField (setField firstRunState "water__unit_flux_in" [])
      "water__unit_flux_in" = [] :=
  ⟨(add_field_requires_clobber.2.1 firstRunState "water__unit_flux_in" []
      add_field_requires_clobber.1).1,
   (add_field_requires_clobber.2.1 firstRunState "water__unit_flux_in" []
      add_field_requires_clobber.1).2.2⟩

/-- Every element of the fold range, and the seed, is at most the
`max`-fold. -/
theorem le_foldl_max (as : List ℚ) :
    ∀ a : ℚ, (a ≤ as.foldl max a ∧ ∀ x ∈ as, x ≤ as.foldl max a) := by
  induction as with
  | nil => intro a; exact ⟨le_refl a, by simp⟩
  | cons b bs ih =>
    intro a
    simp only [List.foldl_cons]
    refine ⟨le_trans (le_max_left a b) (ih (max a b)).1, ?_⟩
    intro x hx
    rcases List.mem_cons.1 hx with rfl | hx
    · exact le_trans (le_max_right a x) (ih (max a x)).1
    · exact (ih (max a b)).2 x hx

/-- A `max`-fold is the seed or one of the folded elements. -/
theorem foldl_max_mem (as : List ℚ) :
    ∀ a : ℚ, as.foldl max a = a ∨ as.foldl max a ∈ as := by
  induction as with
  | nil => intro a; exact Or.inl rfl
  | cons b bs ih =>
    intro a
    simp only [List.foldl_cons]
    rcases ih (max a b) with h | h
    · rcases max_choice a b with hm | hm
      · exact Or.inl (h.trans hm)
      · rw [h, hm]
        exact Or.inr (List.mem_cons_self b bs)
    · exact Or.inr (List.mem_cons_of_mem b h)

/-- The `min`-fold is at most the seed and every folded element. -/
theorem foldl_min_le (as : List ℚ) :
    ∀ a : ℚ, (as.foldl min a ≤ a ∧ ∀ x ∈ as, as.foldl min a ≤ x) := by
  induction as with
  | nil => intro a; exact ⟨le_refl a, by simp⟩
  | cons b bs ih =>
    intro a
    simp only [List.foldl_cons]
    refine ⟨le_trans (ih (min a b)).1 (min_le_left a b), ?_⟩
    intro x hx
    rcases List.mem_cons.1 hx with rfl | hx
    · exact le_trans (ih (min a x)).1 (min_le_right a x)
    · exact (ih (min a b)).2 x hx

/-- A `min`-fold is the seed or one of the folded elements. -/
theorem foldl_min_mem (as : List ℚ) :
    ∀ a : ℚ, as.foldl min a = a ∨ as.foldl min a ∈ as := by
  induction as with
  | nil => intro a; exact Or.inl rfl
  | cons b bs ih =>
    intro a
    simp only [List.foldl_cons]
    rcases ih (min a b) with h | h
    · rcases min_choice a b with hm | hm
      · exact Or.inl (h.trans hm)
      · rw [h, hm]
        exact Or.inr (List.mem_cons_self b bs)
    · exact Or.inr (List.mem_cons_of_mem b h)

/-- Every array element is at most `npMax` of the array. -/
theorem le_npMax (l : List ℚ) (x : ℚ) (hx : x ∈ l) : x ≤ npMax l := by
  cases l with
  | nil => cases hx
  | cons a as =>
    rcases List.mem_cons.1 hx with rfl | hx
    · exact (le_foldl_max as x).1
    · exact (le_foldl_max as a).2 x hx

/-- `npMin` of the array is at most every array element. -/
theorem npMin_le (l : List ℚ) (x : ℚ) (hx : x ∈ l) : npMin l ≤ x := by
  cases l with
  | nil => cases hx
  | cons a as =>
    rcases List.mem_cons.1 hx with rfl | hx
    · exact (foldl_min_le as x).1
    · exact (foldl_min_le as a).2 x hx

/-- `npMax` of a nonempty array is one of its elements. -/
theorem npMax_mem (l : List ℚ) (h : l ≠ []) : npMax l ∈ l := by
  cases l with
  | nil => exact absurd rfl h
  | cons a as =>
    rcases foldl_max_mem as a with hm | hm
    · rw [npMax, hm]
      exact List.mem_cons_self a as
    · exact List.mem_cons_of_mem a hm

/-- `npMin` of a nonempty array is one of its elements. -/
theorem npMin_mem (l : List ℚ) (h : l ≠ []) : npMin l ∈ l := by
  cases l with
  | nil => exact absurd rfl h
  | cons a as =>
    rcases foldl_min_mem as a with hm | hm
    · rw [npMin, hm]
      exact List.mem_cons_self a as
    · exact List.mem_cons_of_mem a hm

/-- The elevation array is the cast of the natural-number elevation table. -/
theorem elevationArray_eq_cast :
    elevationArray =
      ((List.range numNodes).map elevNode).map (fun k : Nat => (k : ℚ)) := by
  rw [elevationArray, List.map_map]
  rfl

set_option maxRecDepth 40000 in
/-- Claim C9: the divisor `Z.max() - Z.min()` of `surf_plot`'s normalisation
is zero exactly when the plotted surface is constant; the surface the
notebook actually plots has minimum 0 (at the origin corner) and a strictly
positive maximum, so the divisor is nonzero and the division-by-zero case
is unreachable. -/
theorem surf_plot_divisor_nonzero :
    (∀ l : List ℚ, l ≠ [] →
      (npMax l - npMin l = 0 ↔ ∀ x ∈ l, ∀ y ∈ l, x = y)) ∧
    npMin elevationArray = 0 ∧
    0 < npMax elevationArray ∧
    npMax elevationArray - npMin elevationArray ≠ 0 := by
  have hmin : npMin elevationArray = 0 := by
    rw [elevationArray_eq_cast, npMin_map_natCast]
    norm_num
    decide
  have hmax : npMax elevationArray = 324 := by
    rw [elevationArray_eq_cast, npMax_map_natCast]
    norm_cast
  refine ⟨?_, hmin, by rw [hmax]; norm_num, by rw [hmax, hmin]; norm_num⟩
  intro l hl
  constructor
  · intro hsub x hx y hy
    have heq : npMax l = npMin l := by linarith [sub_eq_zero.1 hsub]
    have hx1 : x = npMin l :=
      le_antisymm (heq ▸ le_npMax l x hx) (npMin_le l x hx)
    have hy1 : y = npMin l :=
      le_antisymm (heq ▸ le_npMax l y hy) (npMin_le l y hy)
    rw [hx1, hy1]
  · intro hall
    have h1 : npMax l = npMin l :=
      hall (npMax l) (npMax_mem l hl) (npMin l) (npMin_mem l hl)
    rw [h1, sub_self]

/-- Witness for C9: the iff applied at the notebook's elevation array: its
divisor is nonzero, so the array is not constant. -/
theorem surf_plot_divisor_nonzero_witness :
    ¬ ∀ x ∈ elevationArray, ∀ y ∈ elevationArray, x = y := by
  have h := (surf_plot_divisor_nonzero.1 elevationArray (by
    rw [elevationArray_eq_cast]
    decide)).not.1
  exact fun hall => (h (fun hz => surf_plot_divisor_nonzero.2.2.2 hz)) hall

set_option maxRecDepth 20000 in
/-- Claim C10: the synthetic elevation `3x² + y²` is strictly increasing in
x and in y over the grid's coordinates, every core node's western and
southern neighbours are strictly lower (so no core node is a local
minimum), and consequently every core node has some strictly lower D8
neighbour — the DEM has no depressions for the filling step to remove. -/
theorem elevation_monotone_no_depressions :
    (∀ x2, x2 < ncols → ∀ x1, x1 < x2 → ∀ y, y < nrows →
      elevXY x1 y < elevXY x2 y) ∧
    (∀ y2, y2 < nrows → ∀ y1, y1 < y2 → ∀ x, x < ncols →
      elevXY x y1 < elevXY x y2) ∧
    (∀ n, n < numNodes → isCore n = true →
      elevNode (n - 1) < elevNode n ∧
      elevNode (n - ncols) < elevNode n ∧
      lowerNeighbors d8Offsets n ≠ []) := by
  refine ⟨?_, ?_, ?_⟩ <;> decide

/-- Witness for C10 at concrete inputs: elevation increases from x = 2 to
x = 5 along row y = 3, and core node 44 (x = 4, y = 4) has strictly lower
western and southern neighbours and a nonempty set of lower D8 neighbours. -/
theorem elevation_monotone_no_depressions_witness :
    elevXY 2 3 < elevXY 5 3 ∧
    (elevNode 43 < elevNode 44 ∧ elevNode 34 < elevNode 44 ∧
      lowerNeighbors d8Offsets 44 ≠ []) :=
  ⟨elevation_monotone_no_depressions.1 5 (by decide) 2 (by decide) 3 (by decide),
   elevation_monotone_no_depressions.2.2 44 (by decide) (by decide)⟩
